import Mathlib

/-!
Verification of `src/demo/extract_shopify_products.py`.

The file shallow-embeds the program: the regex-based HTML sanitizer
`clean_description`, the schema mapper `convert_shopify_product_to_schema_product`,
the fetch step `get_all_shopify_products` (with the vendor SDK call abstracted as
an outcome parameter), and `main`.

Regular expressions: every pattern in the source uses Kleene stars only over
single character classes (`\s*`, `[^>]*`, `.*?`), an optional single character
(`https?`) and literal characters, so a pattern is embedded as a list of tokens
and matched with explicit backtracking in Python priority order: greedy
quantifiers try the longest consumption first, lazy ones the shortest, and
`re.sub` replaces the leftmost non-overlapping matches, resuming after the end
of each match. `re.IGNORECASE` is modeled for ASCII letters (the only letters
appearing in the source patterns); `re.DOTALL` makes `.` match every character.
-/

set_option maxRecDepth 100000

namespace Shopify

/-- One token of a compiled regular expression: a character class, a greedy
optional character (`s?`), a greedy star over a class (`\s*`, `[^>]*`) or a
lazy star over a class (`.*?` under DOTALL). -/
inductive Tok where
  | cls (p : Char → Bool)
  | opt (p : Char → Bool)
  | starG (p : Char → Bool)
  | starL (p : Char → Bool)

/-- Fuelled backtracking matcher in Python regex priority order: a greedy
quantifier tries consuming first (so the longest consumption is reached first),
a lazy one tries its continuation first.  `none` means the fuel ran out,
`some none` a definite failure, `some (some r)` a match leaving remainder `r`.
One unit of fuel is spent per call, so any fuel at least `tokens + characters
explored` gives the definite answer (`matchF_enough`). -/
def matchF : Nat → List Tok → List Char → Option (Option (List Char))
  | 0, _, _ => none
  | _ + 1, [], s => some (some s)
  | fuel + 1, Tok.cls p :: ts, s =>
    match s with
    | [] => some none
    | c :: rest => if p c then matchF fuel ts rest else some none
  | fuel + 1, Tok.opt p :: ts, s =>
    match s with
    | [] => matchF fuel ts []
    | c :: rest =>
      if p c then
        match matchF fuel ts rest with
        | some (some r) => some (some r)
        | some none => matchF fuel ts (c :: rest)
        | none => none
      else matchF fuel ts (c :: rest)
  | fuel + 1, Tok.starG p :: ts, s =>
    match s with
    | [] => matchF fuel ts []
    | c :: rest =>
      if p c then
        match matchF fuel (Tok.starG p :: ts) rest with
        | some (some r) => some (some r)
        | some none => matchF fuel ts (c :: rest)
        | none => none
      else matchF fuel ts (c :: rest)
  | fuel + 1, Tok.starL p :: ts, s =>
    match matchF fuel ts s with
    | some (some r) => some (some r)
    | some none =>
      match s with
      | [] => some none
      | c :: rest => if p c then matchF fuel (Tok.starL p :: ts) rest else some none
    | none => none

/-- Match a token list at the start of a string; on success return the remainder
after the match.  The fuel `ts.length + s.length + 1` always suffices. -/
def matchToks (ts : List Tok) (s : List Char) : Option (List Char) :=
  match matchF (ts.length + s.length + 1) ts s with
  | some r => r
  | none => none

/-- `re.sub(pattern, "", s)`: delete every leftmost non-overlapping match,
scanning left to right and resuming after each match.  The `Nat` argument is
fuel, always instantiated with the length of the string (a match never grows
the remainder, so the fuel never runs out). -/
def substFuel : Nat → List Tok → List Char → List Char
  | 0, _, s => s
  | _ + 1, _, [] => []
  | fuel + 1, ts, c :: rest =>
    match matchToks ts (c :: rest) with
    | some r =>
      if r.length ≤ rest.length then substFuel fuel ts r
      else c :: substFuel fuel ts rest
    | none => c :: substFuel fuel ts rest

/-- Delete every match of the pattern from the string (`re.sub` with empty
replacement). -/
def subst (ts : List Tok) (s : List Char) : List Char := substFuel s.length ts s

/-- Python `\s` (ASCII part) and the default `str.strip()` whitespace set. -/
def wsChar (c : Char) : Bool :=
  c == ' ' || c == '\t' || c == '\n' || c == '\r' || c == '\x0b' || c == '\x0c'

/-- Case-insensitive character comparison as `re.IGNORECASE` behaves on ASCII
letters (codes 65-90 and 97-122 pair up); non-letters only match themselves. -/
def ciEq (a b : Char) : Bool :=
  a == b ||
    (65 ≤ a.toNat && a.toNat ≤ 90 && b.toNat == a.toNat + 32) ||
    (65 ≤ b.toNat && b.toNat ≤ 90 && a.toNat == b.toNat + 32)

/-- Case-insensitive literal character token. -/
def cil (c : Char) : Tok := Tok.cls (fun x => ciEq x c)

/-- Case-insensitive literal string, one token per character. -/
def lcil (s : String) : List Tok := s.toList.map cil

/-- Case-sensitive literal character token. -/
def lit (c : Char) : Tok := Tok.cls (fun x => x == c)

/-- Case-sensitive literal string, one token per character. -/
def llit (s : String) : List Tok := s.toList.map lit

/-- `\s*` -/
def wsStar : Tok := Tok.starG wsChar

/-- `[^>]*` -/
def notGtStar : Tok := Tok.starG (fun c => !(c == '>'))

/-- `.*?` with `re.DOTALL` -/
def anyLazy : Tok := Tok.starL (fun _ => true)

/-- The character class of the div pattern matching one single or double
quote (codes 39 and 34). -/
def quoteCls : Tok := Tok.cls (fun c => c.toNat == 39 || c == '"')

/-- Tail of the first disclaimer pattern (everything after the leading `<`):
`em>\s*This is a demonstration store\. You can purchase products like this
from\s*<a[^>]*href="https?://www\.purefixcycles\.com"[^>]*target="_blank">Pure
Fix Cycles</a>\s*</em>`. -/
def emTail : List Tok :=
  lcil "em>" ++ [wsStar] ++
  lcil "This is a demonstration store. You can purchase products like this from" ++
  [wsStar] ++ lcil "<a" ++ [notGtStar] ++ lcil "href=\"http" ++
  [Tok.opt (fun x => ciEq x 's')] ++ lcil "://www.purefixcycles.com\"" ++
  [notGtStar] ++ lcil "target=\"_blank\">Pure Fix Cycles</a>" ++
  [wsStar] ++ lcil "</em>"

/-- First entry of `DEMO_STORE_DISCLAIMER_PATTERNS` (source lines 21-22),
compiled with `re.IGNORECASE | re.DOTALL`. -/
def emPattern : List Tok := cil '<' :: emTail

/-- Tail of `<!--\s*DEMO_STORE_DISCLAIMER\s*-->` after the leading `<`. -/
def commentTail : List Tok :=
  lcil "!--" ++ [wsStar] ++ lcil "DEMO_STORE_DISCLAIMER" ++ [wsStar] ++ lcil "-->"

/-- Second entry of `DEMO_STORE_DISCLAIMER_PATTERNS` (source line 23). -/
def commentPattern : List Tok := cil '<' :: commentTail

/-- Tail of the third pattern after the leading `<`: `div`, `\s+`, `class=`,
a quote class, `demo-store-disclaimer`, a quote class, `[^>]*`, `>`, `.*?`,
`</div>`. -/
def divTail : List Tok :=
  lcil "div" ++ [Tok.cls wsChar, wsStar] ++ lcil "class=" ++ [quoteCls] ++
  lcil "demo-store-disclaimer" ++ [quoteCls] ++ [notGtStar] ++ lcil ">" ++
  [anyLazy] ++ lcil "</div>"

/-- Third entry of `DEMO_STORE_DISCLAIMER_PATTERNS` (source line 24). -/
def divPattern : List Tok := cil '<' :: divTail

/-- Tail of `<p>\s*</p>` (source line 77, compiled without flags, hence
case-sensitive). -/
def pTail : List Tok := llit "p>" ++ [wsStar] ++ llit "</p>"

/-- The empty-paragraph pattern `<p>\s*</p>` of source line 77. -/
def pPattern : List Tok := lit '<' :: pTail

/-- Python `str.strip()`: drop leading and trailing whitespace. -/
def pyStrip (l : List Char) : List Char :=
  List.rdropWhile wsChar (List.dropWhile wsChar l)

/-- The four substitutions of `clean_description` applied in source order,
followed by `strip()` (source lines 73-78). -/
def cleanList (l : List Char) : List Char :=
  pyStrip (subst pPattern (subst divPattern (subst commentPattern (subst emPattern l))))

/-- `clean_description` (source lines 69-78).  The parameter is `Option String`
because the caller passes the possibly missing `product.body_html`; the Python test
`if not html_content` is false exactly for `None` and `""`. -/
def clean_description (html_content : Option String) : String :=
  match html_content with
  | none => ""
  | some s => if s = "" then "" else (cleanList s.toList).asString

/-- The exact demo-store `<em>` disclaimer (canonical string matched by the
first pattern). -/
def emD : String :=
  "<em>This is a demonstration store. You can purchase products like this from <a href=\"https://www.purefixcycles.com\" target=\"_blank\">Pure Fix Cycles</a></em>"

/-- The literal demo-store disclaimer HTML comment. -/
def commentD : String := "<!-- DEMO_STORE_DISCLAIMER -->"

/-- A canonical `demo-store-disclaimer` div matched by the third pattern. -/
def divD : String := "<div class=\"demo-store-disclaimer\">This is a demo store.</div>"

/-! ### Data model of the schema mapper -/

/-- A JSON-like value as produced by the script (the values that can appear in
the emitted documents). -/
inductive JValue where
  | null
  | str (s : String)
  | num (n : Int)
  | list (xs : List JValue)
  | obj (fields : List (String × JValue))

/-- `v is None` on a document value. -/
def JValue.isNull : JValue → Bool
  | JValue.null => true
  | _ => false

/-- Vendor SDK image record: identifier plus source URL (which the SDK may
report as null). -/
structure ShopifyImage where
  id : Nat
  src : Option String

/-- Vendor SDK variant record.  `inventory_quantity` is `none` when the
attribute is absent, which is what `getattr` with default 0 at source line 114
guards against. -/
structure ShopifyVariant where
  id : Nat
  title : Option String
  price : Option String
  sku : Option String
  inventory_quantity : Option Int

/-- Vendor SDK product record with the projected fields of source lines 45-48.
Fields that Python may hold as `None` are `Option`s. -/
structure ShopifyProduct where
  id : Nat
  title : Option String
  handle : String
  body_html : Option String
  product_type : Option String
  vendor : Option String
  tags : Option String
  published_at : Option String
  updated_at : Option String
  images : List ShopifyImage
  variants : List ShopifyVariant

/-- A possibly-missing string as a document value (`None` becomes JSON null). -/
def optStr : Option String → JValue
  | none => JValue.null
  | some s => JValue.str s

/-- The variant sub-document of source lines 108-115.  Note: it is built and
appended as-is; no null filtering is applied to it. -/
def variantInfo (v : ShopifyVariant) : JValue :=
  JValue.obj [
    ("@type", JValue.str "ProductVariant"),
    ("id", JValue.str (toString v.id)),
    ("title", optStr v.title),
    ("price", optStr v.price),
    ("sku", optStr v.sku),
    ("inventoryQuantity", JValue.num (v.inventory_quantity.getD 0))]

/-- The `product_info` dict as built by source lines 82-117, before the final
null filtering: the ten fixed entries, then the two image keys when the image
list is non-empty, then the variants key when the variant list is non-empty.
`urljoin(f"https://SHOP", "/products/HANDLE")` is string concatenation for a
bare host name, which is what the program passes. -/
def productInfoRaw (product : ShopifyProduct) (shop_url : String) : List (String × JValue) :=
  [("@type", JValue.str "Product"),
   ("name", optStr product.title),
   ("description", JValue.str (clean_description product.body_html)),
   ("url", JValue.str ("https://" ++ shop_url ++ "/products/" ++ product.handle)),
   ("productID", JValue.str (toString product.id)),
   ("vendor", optStr product.vendor),
   ("productType", optStr product.product_type),
   ("tags", optStr product.tags),
   ("publishedAt", optStr product.published_at),
   ("updatedAt", optStr product.updated_at)]
  ++ (match product.images with
      | [] => []
      | img :: imgs =>
        [("primaryImage", optStr img.src),
         ("images", JValue.list ((img :: imgs).map (fun i => optStr i.src)))])
  ++ (match product.variants with
      | [] => []
      | v :: vs => [("variants", JValue.list ((v :: vs).map variantInfo))])

/-- `convert_shopify_product_to_schema_product` (source lines 81-119): build
the dict, then drop the top-level keys whose value is None (line 119). -/
def convert_shopify_product_to_schema_product
    (product : ShopifyProduct) (shop_url : String) : List (String × JValue) :=
  (productInfoRaw product shop_url).filter (fun kv => !kv.2.isNull)

/-- A document contains a null value somewhere: directly under a key, or
nested inside a list or a sub-document. -/
inductive HasNullValue : JValue → Prop where
  | hereObj (fields : List (String × JValue)) (k : String)
      (h : (k, JValue.null) ∈ fields) : HasNullValue (JValue.obj fields)
  | inObj (fields : List (String × JValue)) (k : String) (v : JValue)
      (h : (k, v) ∈ fields) (hv : HasNullValue v) : HasNullValue (JValue.obj fields)
  | inList (xs : List JValue) (v : JValue)
      (h : v ∈ xs) (hv : HasNullValue v) : HasNullValue (JValue.list xs)

/-! ### The fetch step and the main pipeline -/

/-- Python truthiness of an optional string: `None` and `""` are falsy. -/
def pyTruthyStr : Option String → Bool
  | none => false
  | some s => s ≠ ""

/-- Session lifecycle events, in the order they happen. -/
inductive SessionEv where
  | activated
  | cleared
deriving DecidableEq

/-- How `get_all_shopify_products` finishes: a normal return or a propagating
exception (one not caught by any `except` clause, e.g. a `BaseException`
raised during the API call). -/
inductive FetchExit where
  | returned (products : Option (List ShopifyProduct))
  | raised (msg : String)

/-- Result of one run of the fetch step: its return/raise behaviour, the
session events it performed, and the error lines it logged. -/
structure FetchResult where
  result : FetchExit
  sessionEvents : List SessionEv
  errorLogs : List String

/-- Outcome of the vendor SDK interaction inside the `try` block, abstracting
the network: the `shopify.Product.find` call returns products, raises one of
the caught exception classes, raises some other `Exception`, or raises an
uncatchable `BaseException`; `sessionCreateError` is an exception inside
`shopify.Session(...)` itself, before any activation. -/
inductive FetchOutcome where
  | ok (products : List ShopifyProduct)
  | forbidden
  | resourceNotFound
  | unauthorized
  | serverError (msg : String)
  | otherException (msg : String)
  | sessionCreateError (msg : String)
  | baseException (msg : String)

/-- `get_all_shopify_products` (source lines 28-66): config check, session
activation, fetch, per-class exception handling, and the `finally` block that
clears the session whenever one was created. -/
def get_all_shopify_products (shop_url access_token : Option String)
    (oc : FetchOutcome) : FetchResult :=
  if pyTruthyStr shop_url = false || pyTruthyStr access_token = false then
    { result := FetchExit.returned none,
      sessionEvents := [],
      errorLogs := ["Error: SHOP_URL and SHOPIFY_ACCESS_TOKEN are required."] }
  else
    match oc with
    | FetchOutcome.sessionCreateError m =>
      { result := FetchExit.returned none,
        sessionEvents := [],
        errorLogs := ["Unexpected error during Shopify API call: " ++ m] }
    | FetchOutcome.ok ps =>
      { result := FetchExit.returned (some ps),
        sessionEvents := [SessionEv.activated, SessionEv.cleared],
        errorLogs := [] }
    | FetchOutcome.forbidden =>
      { result := FetchExit.returned none,
        sessionEvents := [SessionEv.activated, SessionEv.cleared],
        errorLogs := ["Authentication failed or insufficient permissions."] }
    | FetchOutcome.resourceNotFound =>
      { result := FetchExit.returned none,
        sessionEvents := [SessionEv.activated, SessionEv.cleared],
        errorLogs := ["Resource not found. Check Shopify URL or API version."] }
    | FetchOutcome.unauthorized =>
      { result := FetchExit.returned none,
        sessionEvents := [SessionEv.activated, SessionEv.cleared],
        errorLogs := ["Unauthorized access. Check SHOPIFY_ACCESS_TOKEN."] }
    | FetchOutcome.serverError m =>
      { result := FetchExit.returned none,
        sessionEvents := [SessionEv.activated, SessionEv.cleared],
        errorLogs := ["Shopify server error: " ++ m] }
    | FetchOutcome.otherException m =>
      { result := FetchExit.returned none,
        sessionEvents := [SessionEv.activated, SessionEv.cleared],
        errorLogs := ["Unexpected error during Shopify API call: " ++ m] }
    | FetchOutcome.baseException m =>
      { result := FetchExit.raised m,
        sessionEvents := [SessionEv.activated, SessionEv.cleared],
        errorLogs := [] }

/-- The five failure shapes the claim enumerates: everything the fetch can
catch (all `Exception`s), as opposed to a successful return. -/
def FetchOutcome.isCaughtFailure : FetchOutcome → Bool
  | FetchOutcome.forbidden => true
  | FetchOutcome.resourceNotFound => true
  | FetchOutcome.unauthorized => true
  | FetchOutcome.serverError _ => true
  | FetchOutcome.otherException _ => true
  | FetchOutcome.sessionCreateError _ => true
  | _ => false

/-- Session state after replaying the events. -/
def sessionActiveAfter (evs : List SessionEv) : Bool :=
  evs.foldl (fun _ e => match e with
    | SessionEv.activated => true
    | SessionEv.cleared => false) false

/-- Environment configuration read by `main`. -/
structure Config where
  SHOP_URL : Option String
  SHOPIFY_ACCESS_TOKEN : Option String

/-- The error line of source lines 152-153. -/
def errLine (p : ShopifyProduct) (e : String) : String :=
  "Error processing product " ++ toString p.id ++ ": " ++ e

/-- The per-product loop of source lines 144-153.  Exceptions raised by the
dynamic mapping/serialization of one product are abstracted by the oracle
`raises`; on `none` the product maps to its converted document, on `some e`
the item is caught, logged with the product id, and skipped.  Returns the
documents written in order and the error lines logged. -/
def writeLoop (shop_url : String) (raises : ShopifyProduct → Option String) :
    List ShopifyProduct → List JValue × List String
  | [] => ([], [])
  | p :: ps =>
    let rest := writeLoop shop_url raises ps
    match raises p with
    | some e => (rest.1, errLine p e :: rest.2)
    | none =>
      (JValue.obj (convert_shopify_product_to_schema_product p shop_url) :: rest.1, rest.2)

/-- Result of one run of `main`: the process exit code, the output file content
(`none` when the file was never opened, `some docs` when it was written with
one document per line), and the error lines logged. -/
structure MainResult where
  exitCode : Nat
  output : Option (List JValue)
  errLogs : List String

/-- `main` (source lines 122-160): missing configuration exits 1 before any
fetch; a `None` fetch result exits 1; an empty product list exits 0 *before
the output file is opened* (lines 137-139); otherwise the file is opened
(`openFails` abstracts a fatal `open`/IO failure, caught at lines 158-160 and
exiting 1) and the per-product loop runs, after which the process ends with
exit code 0. -/
def mainRun (cfg : Config) (oc : FetchOutcome)
    (raises : ShopifyProduct → Option String) (openFails : Bool) : MainResult :=
  if pyTruthyStr cfg.SHOP_URL = false || pyTruthyStr cfg.SHOPIFY_ACCESS_TOKEN = false then
    { exitCode := 1, output := none,
      errLogs := ["SHOP_URL and SHOPIFY_ACCESS_TOKEN must be set."] }
  else
    let fr := get_all_shopify_products cfg.SHOP_URL cfg.SHOPIFY_ACCESS_TOKEN oc
    match fr.result with
    | FetchExit.raised _ =>
      { exitCode := 1, output := none, errLogs := fr.errorLogs }
    | FetchExit.returned none =>
      { exitCode := 1, output := none,
        errLogs := fr.errorLogs ++ ["Failed to retrieve products. Exiting."] }
    | FetchExit.returned (some ps) =>
      if ps.isEmpty then
        { exitCode := 0, output := none, errLogs := fr.errorLogs }
      else if openFails then
        { exitCode := 1, output := none,
          errLogs := fr.errorLogs ++ ["Fatal error during export"] }
      else
        let wl := writeLoop (cfg.SHOP_URL.getD "") raises ps
        { exitCode := 0, output := some wl.1, errLogs := fr.errorLogs ++ wl.2 }

/-! ### Concrete instances used by counterexamples and witnesses -/

/-- A configuration with both required environment values present. -/
def cfgEx : Config := { SHOP_URL := some "example.myshopify.com", SHOPIFY_ACCESS_TOKEN := some "shpat-token" }

/-- A variant whose SKU the SDK reports as null. -/
def varEx : ShopifyVariant :=
  { id := 111, title := some "Default Title", price := some "10.00",
    sku := none, inventory_quantity := some 5 }

/-- A fully-populated product with one variant whose SKU is null. -/
def prodEx : ShopifyProduct :=
  { id := 42, title := some "Blue Bike", handle := "blue-bike",
    body_html := some "<p>A fine bike.</p>", product_type := some "Bike",
    vendor := some "Pure Fix Cycles", tags := some "bike",
    published_at := some "2024-01-01T00:00:00-05:00",
    updated_at := some "2024-01-02T00:00:00-05:00",
    images := [], variants := [varEx] }

/-- A product whose dynamic mapping raises (see `raisesEx`). -/
def prodFail : ShopifyProduct :=
  { id := 1, title := none, handle := "bad", body_html := none,
    product_type := none, vendor := none, tags := none,
    published_at := none, updated_at := none, images := [], variants := [] }

/-- Oracle: mapping product 1 raises, everything else succeeds. -/
def raisesEx (p : ShopifyProduct) : Option String :=
  if p.id = 1 then some "boom" else none

/-- The fields of `variantInfo varEx`, written out. -/
def varExFields : List (String × JValue) :=
  [("@type", JValue.str "ProductVariant"),
   ("id", JValue.str "111"),
   ("title", JValue.str "Default Title"),
   ("price", JValue.str "10.00"),
   ("sku", JValue.null),
   ("inventoryQuantity", JValue.num 5)]

/-- The emitted document for `prodEx`, written out. -/
def convExFields : List (String × JValue) :=
  [("@type", JValue.str "Product"),
   ("name", JValue.str "Blue Bike"),
   ("description", JValue.str "<p>A fine bike.</p>"),
   ("url", JValue.str "https://example.myshopify.com/products/blue-bike"),
   ("productID", JValue.str "42"),
   ("vendor", JValue.str "Pure Fix Cycles"),
   ("productType", JValue.str "Bike"),
   ("tags", JValue.str "bike"),
   ("publishedAt", JValue.str "2024-01-01T00:00:00-05:00"),
   ("updatedAt", JValue.str "2024-01-02T00:00:00-05:00"),
   ("variants", JValue.list [JValue.obj varExFields])]

/-- The nested-comment input whose inner disclaimer removal splices together a
new copy of the disclaimer comment. -/
def nestedCommentInput : String :=
  "<!-- DEMO_<!-- DEMO_STORE_DISCLAIMER -->STORE_DISCLAIMER -->"

/-! ### Matcher infrastructure lemmas -/

/-- A definite matcher verdict is stable under adding fuel. -/
theorem matchF_mono {n : Nat} : ∀ {m : Nat} {ts : List Tok} {s : List Char}
    {res : Option (List Char)}, matchF n ts s = some res → n ≤ m → matchF m ts s = some res := by
  induction n with
  | zero => intro m ts s res h _; simp [matchF] at h
  | succ n ih =>
    intro m ts s res h hm
    obtain ⟨m, rfl⟩ : ∃ k, m = k + 1 := ⟨m - 1, by omega⟩
    have hm : n ≤ m := by omega
    match ts with
    | [] => simpa [matchF] using h
    | Tok.cls p :: ts =>
      match s with
      | [] => simpa [matchF] using h
      | c :: rest =>
        by_cases hp : p c
        · simp only [matchF, hp, if_true] at h ⊢
          exact ih h hm
        · simpa [matchF, hp] using h
    | Tok.opt p :: ts =>
      match s with
      | [] =>
        simp only [matchF] at h ⊢
        exact ih h hm
      | c :: rest =>
        by_cases hp : p c
        · simp only [matchF, hp, if_true] at h ⊢
          cases hin : matchF n ts rest with
          | none => rw [hin] at h; simp at h
          | some r1 =>
            rw [hin] at h
            rw [ih hin hm]
            cases r1 with
            | none => exact ih h hm
            | some r => exact h
        · simp only [matchF, hp, if_false] at h ⊢
          exact ih h hm
    | Tok.starG p :: ts =>
      match s with
      | [] =>
        simp only [matchF] at h ⊢
        exact ih h hm
      | c :: rest =>
        by_cases hp : p c
        · simp only [matchF, hp, if_true] at h ⊢
          cases hin : matchF n (Tok.starG p :: ts) rest with
          | none => rw [hin] at h; simp at h
          | some r1 =>
            rw [hin] at h
            rw [ih hin hm]
            cases r1 with
            | none => exact ih h hm
            | some r => exact h
        · simp only [matchF, hp, if_false] at h ⊢
          exact ih h hm
    | Tok.starL p :: ts =>
      simp only [matchF] at h ⊢
      cases hin : matchF n ts s with
      | none => rw [hin] at h; simp at h
      | some r1 =>
        rw [hin] at h
        rw [ih hin hm]
        cases r1 with
        | some r => exact h
        | none =>
          match s with
          | [] => exact h
          | c :: rest =>
            by_cases hp : p c
            · simp only [hp, if_true] at h ⊢
              exact ih h hm
            · simpa [hp] using h

/-- With fuel at least `tokens + characters + 1` the matcher never runs out. -/
theorem matchF_enough {n : Nat} : ∀ {ts : List Tok} {s : List Char},
    ts.length + s.length + 1 ≤ n → matchF n ts s ≠ none := by
  induction n with
  | zero => intro ts s h; omega
  | succ n ih =>
    intro ts s hb
    match ts with
    | [] => simp [matchF]
    | Tok.cls p :: ts =>
      match s with
      | [] => simp [matchF]
      | c :: rest =>
        have hb2 : ts.length + rest.length + 1 ≤ n := by
          simp only [List.length_cons] at hb; omega
        by_cases hp : p c
        · simpa [matchF, hp] using ih hb2
        · simp [matchF, hp]
    | Tok.opt p :: ts =>
      match s with
      | [] =>
        have hb2 : ts.length + ([] : List Char).length + 1 ≤ n := by
          simp only [List.length_cons, List.length_nil] at hb ⊢; omega
        simpa [matchF] using ih hb2
      | c :: rest =>
        have hb2 : ts.length + rest.length + 1 ≤ n := by
          simp only [List.length_cons] at hb; omega
        have hb3 : ts.length + (c :: rest).length + 1 ≤ n := by
          simp only [List.length_cons] at hb ⊢; omega
        by_cases hp : p c
        · simp only [matchF, hp, if_true]
          cases hin : matchF n ts rest with
          | none => exact absurd hin (ih hb2)
          | some r1 =>
            cases r1 with
            | none => exact ih hb3
            | some r => simp
        · simpa [matchF, hp] using ih hb3
    | Tok.starG p :: ts =>
      match s with
      | [] =>
        have hb2 : ts.length + ([] : List Char).length + 1 ≤ n := by
          simp only [List.length_cons, List.length_nil] at hb ⊢; omega
        simpa [matchF] using ih hb2
      | c :: rest =>
        have hb2 : (Tok.starG p :: ts).length + rest.length + 1 ≤ n := by
          simp only [List.length_cons] at hb ⊢; omega
        have hb3 : ts.length + (c :: rest).length + 1 ≤ n := by
          simp only [List.length_cons] at hb ⊢; omega
        by_cases hp : p c
        · simp only [matchF, hp, if_true]
          cases hin : matchF n (Tok.starG p :: ts) rest with
          | none => exact absurd hin (ih hb2)
          | some r1 =>
            cases r1 with
            | none => exact ih hb3
            | some r => simp
        · simpa [matchF, hp] using ih hb3
    | Tok.starL p :: ts =>
      have hb2 : ts.length + s.length + 1 ≤ n := by
        simp only [List.length_cons] at hb; omega
      simp only [matchF]
      cases hin : matchF n ts s with
      | none => exact absurd hin (ih hb2)
      | some r1 =>
        cases r1 with
        | some r => simp
        | none =>
          match s with
          | [] => simp
          | c :: rest =>
            have hb4 : (Tok.starL p :: ts).length + rest.length + 1 ≤ n := by
              simp only [List.length_cons] at hb ⊢; omega
            by_cases hp : p c
            · simpa [hp] using ih hb4
            · simp [hp]

/-- Any definite `matchF` verdict, at any fuel, is the value of `matchToks`. -/
theorem matchToks_eq {ts : List Tok} {s : List Char} {res : Option (List Char)} {n : Nat}
    (h : matchF n ts s = some res) : matchToks ts s = res := by
  unfold matchToks
  rcases Nat.le_total n (ts.length + s.length + 1) with hle | hle
  · cases hb : matchF (ts.length + s.length + 1) ts s with
    | none => exact absurd hb (matchF_enough (Nat.le_refl _))
    | some r =>
      have h2 := matchF_mono h hle
      rw [hb] at h2
      cases h2
      rfl
  · cases hb : matchF (ts.length + s.length + 1) ts s with
    | none => exact absurd hb (matchF_enough (Nat.le_refl _))
    | some r =>
      have h2 := matchF_mono hb hle
      rw [h] at h2
      cases h2
      rfl

/-! ### Substitution lemmas -/

/-- `substFuel` does not depend on the fuel once the fuel covers the string. -/
theorem substFuel_congr {n : Nat} : ∀ {m : Nat} {ts : List Tok} {s : List Char},
    s.length ≤ n → s.length ≤ m → substFuel n ts s = substFuel m ts s := by
  induction n with
  | zero =>
    intro m ts s hn _
    have : s = [] := List.length_eq_zero.mp (Nat.le_zero.mp hn)
    subst this
    cases m <;> simp [substFuel]
  | succ n ih =>
    intro m ts s hn hm
    match s with
    | [] => cases m <;> simp [substFuel]
    | c :: rest =>
      obtain ⟨m, rfl⟩ : ∃ k, m = k + 1 := ⟨m - 1, by simp at hm; omega⟩
      simp only [List.length_cons] at hn hm
      simp only [substFuel]
      cases hmt : matchToks ts (c :: rest) with
      | none =>
        show c :: substFuel n ts rest = c :: substFuel m ts rest
        exact congrArg (c :: ·) (ih (by omega) (by omega))
      | some u =>
        by_cases hu : u.length ≤ rest.length
        · show (if u.length ≤ rest.length then substFuel n ts u else c :: substFuel n ts rest)
            = (if u.length ≤ rest.length then substFuel m ts u else c :: substFuel m ts rest)
          simp only [hu, if_true]
          exact ih (by omega) (by omega)
        · show (if u.length ≤ rest.length then substFuel n ts u else c :: substFuel n ts rest)
            = (if u.length ≤ rest.length then substFuel m ts u else c :: substFuel m ts rest)
          simp only [hu, if_false]
          exact congrArg (c :: ·) (ih (by omega) (by omega))

theorem subst_nil (ts : List Tok) : subst ts [] = [] := rfl

/-- When nothing matches at the head, `re.sub` moves one character forward. -/
theorem subst_cons_none {ts : List Tok} {c : Char} {r : List Char}
    (h : matchToks ts (c :: r) = none) : subst ts (c :: r) = c :: subst ts r := by
  simp [subst, substFuel, h]

/-- When a (progressing) match is found at the head, `re.sub` deletes it and
resumes after its end. -/
theorem subst_cons_match {ts : List Tok} {c : Char} {r u : List Char}
    (h : matchToks ts (c :: r) = some u) (hu : u.length ≤ r.length) :
    subst ts (c :: r) = subst ts u := by
  simp only [subst, List.length_cons, substFuel, h, hu, if_true]
  exact substFuel_congr (by omega) (Nat.le_refl _)

/-- If no match can start at any character of the prefix `p`, substitution
passes over `p` untouched. -/
theorem subst_append_of_skip {ts : List Tok}
    (hskip : ∀ c r, c ≠ '<' → matchToks ts (c :: r) = none) :
    ∀ {p q : List Char}, (∀ c ∈ p, c ≠ '<') → subst ts (p ++ q) = p ++ subst ts q := by
  intro p
  induction p with
  | nil => intro q _; simp
  | cons a p ih =>
    intro q hp
    have ha : a ≠ '<' := hp a (List.mem_cons_self a p)
    rw [List.cons_append, subst_cons_none (hskip a _ ha), ih fun c hc => hp c (List.mem_cons_of_mem a hc),
      List.cons_append]

/-- Substitution leaves a string without `<` unchanged (every pattern used by
the program can only start matching at a `<`). -/
theorem subst_eq_self_of_skip {ts : List Tok}
    (hskip : ∀ c r, c ≠ '<' → matchToks ts (c :: r) = none)
    {s : List Char} (hs : ∀ c ∈ s, c ≠ '<') : subst ts s = s := by
  have h := subst_append_of_skip hskip (q := []) hs
  simpa [subst_nil] using h

/-! ### Pattern-specific facts -/

/-- `<` is not an ASCII letter, so under `re.IGNORECASE` it only matches itself. -/
theorem ciEq_lt_false {c : Char} (h : c ≠ '<') : ciEq c '<' = false := by
  have h60 : ('<').toNat = 60 := rfl
  apply Bool.eq_false_iff.mpr
  intro hcontra
  rw [ciEq] at hcontra
  simp only [Bool.or_eq_true, Bool.and_eq_true, beq_iff_eq, decide_eq_true_eq, h60] at hcontra
  rcases hcontra with (hc | hc) | hc
  · exact h hc
  · omega
  · omega

/-- A character-class token at the head fails immediately on a character
outside the class. -/
theorem matchToks_cls_head_false {p : Char → Bool} {ts : List Tok} {c : Char} {r : List Char}
    (h : p c = false) : matchToks (Tok.cls p :: ts) (c :: r) = none :=
  matchToks_eq (n := 2) (by simp [matchF, h])

/-- The `<em>` disclaimer pattern can only start matching at a `<`. -/
theorem em_skip : ∀ c r, c ≠ '<' → matchToks emPattern (c :: r) = none :=
  fun _ _ h => matchToks_cls_head_false (ciEq_lt_false h)

/-- The disclaimer-comment pattern can only start matching at a `<`. -/
theorem comment_skip : ∀ c r, c ≠ '<' → matchToks commentPattern (c :: r) = none :=
  fun _ _ h => matchToks_cls_head_false (ciEq_lt_false h)

/-- The disclaimer-div pattern can only start matching at a `<`. -/
theorem div_skip : ∀ c r, c ≠ '<' → matchToks divPattern (c :: r) = none :=
  fun _ _ h => matchToks_cls_head_false (ciEq_lt_false h)

/-- The empty-paragraph pattern can only start matching at a `<`. -/
theorem p_skip : ∀ c r, c ≠ '<' → matchToks pPattern (c :: r) = none :=
  fun _ _ h => matchToks_cls_head_false (beq_eq_false_iff_ne.mpr h)

/-- Matching the `<em>` pattern at the canonical `<em>` disclaimer consumes
exactly the disclaimer, whatever follows. -/
theorem em_at_emD (s : List Char) :
    matchF 3000 emPattern ('<' :: ("em>This is a demonstration store. You can purchase products like this from <a href=\"https://www.purefixcycles.com\" target=\"_blank\">Pure Fix Cycles</a></em>".toList ++ s)) = some (some s) := rfl

/-- Matching the comment pattern at the canonical comment consumes exactly the
comment, whatever follows. -/
theorem comment_at_commentD (s : List Char) :
    matchF 3000 commentPattern ('<' :: ("!-- DEMO_STORE_DISCLAIMER -->".toList ++ s)) = some (some s) := rfl

/-- Matching the div pattern at the canonical div consumes exactly the div,
whatever follows. -/
theorem div_at_divD (s : List Char) :
    matchF 3000 divPattern ('<' :: ("div class=\"demo-store-disclaimer\">This is a demo store.".toList ++ ('<' :: ("/div>".toList ++ s)))) = some (some s) := rfl

/-- The `<em>` pattern fails at the start of the canonical comment. -/
theorem em_at_commentD (s : List Char) :
    matchF 3000 emPattern ('<' :: ("!-- DEMO_STORE_DISCLAIMER -->".toList ++ s)) = some none := rfl

/-- The `<em>` pattern fails at the start of the canonical div. -/
theorem em_at_divOpen (s : List Char) :
    matchF 3000 emPattern ('<' :: ("div class=\"demo-store-disclaimer\">This is a demo store.".toList ++ ('<' :: ("/div>".toList ++ s)))) = some none := rfl

/-- The `<em>` pattern fails at a closing `</div>`. -/
theorem em_at_divClose (s : List Char) :
    matchF 3000 emPattern ('<' :: ("/div>".toList ++ s)) = some none := rfl

/-- The comment pattern fails at the start of the canonical div. -/
theorem comment_at_divOpen (s : List Char) :
    matchF 3000 commentPattern ('<' :: ("div class=\"demo-store-disclaimer\">This is a demo store.".toList ++ ('<' :: ("/div>".toList ++ s)))) = some none := rfl

/-- The comment pattern fails at a closing `</div>`. -/
theorem comment_at_divClose (s : List Char) :
    matchF 3000 commentPattern ('<' :: ("/div>".toList ++ s)) = some none := rfl

/-! ### The sanitizer on a disclaimer in a `<`-free context -/

/-- Characters survive `strip()` only if present before it. -/
theorem pyStrip_subset {l : List Char} : pyStrip l ⊆ l := fun _ hc =>
  (List.dropWhile_suffix wsChar).sublist.subset
    (( List.rdropWhile_prefix wsChar (List.dropWhile wsChar l)).sublist.subset hc)

theorem toList_asString (l : List Char) : (List.asString l).toList = l := rfl

theorem asString_ne_empty {l : List Char} (h : l ≠ []) : List.asString l ≠ "" := by
  intro he
  exact h (by simpa [toList_asString] using congrArg String.toList he)

/-- Cleaning `p ++ commentD ++ s` with `<`-free context removes the comment. -/
theorem cleanList_insert_comment (p s : List Char)
    (hp : ∀ c ∈ p, c ≠ '<') (hs : ∀ c ∈ s, c ≠ '<') :
    cleanList (p ++ commentD.toList ++ s) = pyStrip (p ++ s) := by
  have hps : ∀ c ∈ p ++ s, c ≠ '<' := by
    intro c hc
    rcases List.mem_append.mp hc with h | h
    · exact hp c h
    · exact hs c h
  have hTail : ∀ c ∈ "!-- DEMO_STORE_DISCLAIMER -->".toList, c ≠ '<' := by decide
  have e0 : p ++ commentD.toList ++ s = p ++ ('<' :: ("!-- DEMO_STORE_DISCLAIMER -->".toList ++ s)) := by
    rw [List.append_assoc]; rfl
  have h1 : subst emPattern (p ++ ('<' :: ("!-- DEMO_STORE_DISCLAIMER -->".toList ++ s)))
      = p ++ ('<' :: ("!-- DEMO_STORE_DISCLAIMER -->".toList ++ s)) := by
    rw [subst_append_of_skip em_skip hp, subst_cons_none (matchToks_eq (em_at_commentD s)),
      subst_append_of_skip em_skip hTail, subst_eq_self_of_skip em_skip hs]
  have h2 : subst commentPattern (p ++ ('<' :: ("!-- DEMO_STORE_DISCLAIMER -->".toList ++ s)))
      = p ++ s := by
    rw [subst_append_of_skip comment_skip hp,
      subst_cons_match (matchToks_eq (comment_at_commentD s))
        (by simp [List.length_append]; omega),
      subst_eq_self_of_skip comment_skip hs]
  have h3 : subst divPattern (p ++ s) = p ++ s := subst_eq_self_of_skip div_skip hps
  have h4 : subst pPattern (p ++ s) = p ++ s := subst_eq_self_of_skip p_skip hps
  rw [cleanList, e0, h1, h2, h3, h4]

/-- Cleaning `p ++ emD ++ s` with `<`-free context removes the `<em>` disclaimer. -/
theorem cleanList_insert_em (p s : List Char)
    (hp : ∀ c ∈ p, c ≠ '<') (hs : ∀ c ∈ s, c ≠ '<') :
    cleanList (p ++ emD.toList ++ s) = pyStrip (p ++ s) := by
  have hps : ∀ c ∈ p ++ s, c ≠ '<' := by
    intro c hc
    rcases List.mem_append.mp hc with h | h
    · exact hp c h
    · exact hs c h
  have e0 : p ++ emD.toList ++ s = p ++ ('<' :: ("em>This is a demonstration store. You can purchase products like this from <a href=\"https://www.purefixcycles.com\" target=\"_blank\">Pure Fix Cycles</a></em>".toList ++ s)) := by
    rw [List.append_assoc]; rfl
  have h1 : subst emPattern (p ++ ('<' :: ("em>This is a demonstration store. You can purchase products like this from <a href=\"https://www.purefixcycles.com\" target=\"_blank\">Pure Fix Cycles</a></em>".toList ++ s)))
      = p ++ s := by
    rw [subst_append_of_skip em_skip hp,
      subst_cons_match (matchToks_eq (em_at_emD s)) (by simp [List.length_append]; omega),
      subst_eq_self_of_skip em_skip hs]
  have h2 : subst commentPattern (p ++ s) = p ++ s := subst_eq_self_of_skip comment_skip hps
  have h3 : subst divPattern (p ++ s) = p ++ s := subst_eq_self_of_skip div_skip hps
  have h4 : subst pPattern (p ++ s) = p ++ s := subst_eq_self_of_skip p_skip hps
  rw [cleanList, e0, h1, h2, h3, h4]

/-- Cleaning `p ++ divD ++ s` with `<`-free context removes the div. -/
theorem cleanList_insert_div (p s : List Char)
    (hp : ∀ c ∈ p, c ≠ '<') (hs : ∀ c ∈ s, c ≠ '<') :
    cleanList (p ++ divD.toList ++ s) = pyStrip (p ++ s) := by
  have hps : ∀ c ∈ p ++ s, c ≠ '<' := by
    intro c hc
    rcases List.mem_append.mp hc with h | h
    · exact hp c h
    · exact hs c h
  have hA : ∀ c ∈ "div class=\"demo-store-disclaimer\">This is a demo store.".toList, c ≠ '<' := by decide
  have hB : ∀ c ∈ "/div>".toList, c ≠ '<' := by decide
  have e0 : p ++ divD.toList ++ s
      = p ++ ('<' :: ("div class=\"demo-store-disclaimer\">This is a demo store.".toList ++ ('<' :: ("/div>".toList ++ s)))) := by
    rw [List.append_assoc]; rfl
  have h1 : subst emPattern (p ++ ('<' :: ("div class=\"demo-store-disclaimer\">This is a demo store.".toList ++ ('<' :: ("/div>".toList ++ s)))))
      = p ++ ('<' :: ("div class=\"demo-store-disclaimer\">This is a demo store.".toList ++ ('<' :: ("/div>".toList ++ s)))) := by
    rw [subst_append_of_skip em_skip hp, subst_cons_none (matchToks_eq (em_at_divOpen s)),
      subst_append_of_skip em_skip hA, subst_cons_none (matchToks_eq (em_at_divClose s)),
      subst_append_of_skip em_skip hB, subst_eq_self_of_skip em_skip hs]
  have h2 : subst commentPattern (p ++ ('<' :: ("div class=\"demo-store-disclaimer\">This is a demo store.".toList ++ ('<' :: ("/div>".toList ++ s)))))
      = p ++ ('<' :: ("div class=\"demo-store-disclaimer\">This is a demo store.".toList ++ ('<' :: ("/div>".toList ++ s)))) := by
    rw [subst_append_of_skip comment_skip hp, subst_cons_none (matchToks_eq (comment_at_divOpen s)),
      subst_append_of_skip comment_skip hA, subst_cons_none (matchToks_eq (comment_at_divClose s)),
      subst_append_of_skip comment_skip hB, subst_eq_self_of_skip comment_skip hs]
  have h3 : subst divPattern (p ++ ('<' :: ("div class=\"demo-store-disclaimer\">This is a demo store.".toList ++ ('<' :: ("/div>".toList ++ s)))))
      = p ++ s := by
    rw [subst_append_of_skip div_skip hp,
      subst_cons_match (matchToks_eq (div_at_divD s)) (by simp [List.length_append]; omega),
      subst_eq_self_of_skip div_skip hs]
  have h4 : subst pPattern (p ++ s) = p ++ s := subst_eq_self_of_skip p_skip hps
  rw [cleanList, e0, h1, h2, h3, h4]

/-- With a `<`-free context around an inserted canonical disclaimer, the
sanitizer output contains no `<` at all. -/
theorem clean_insert_no_lt (p s : List Char)
    (hp : ∀ c ∈ p, c ≠ '<') (hs : ∀ c ∈ s, c ≠ '<')
    (D : String) (hD : D = emD ∨ D = commentD ∨ D = divD) :
    ∀ c ∈ (clean_description (some ((p ++ D.toList ++ s).asString))).toList, c ≠ '<' := by
  have hDne : D.toList ≠ [] := by
    rcases hD with h | h | h <;> subst h <;> decide
  have hne : p ++ D.toList ++ s ≠ [] := by
    intro h
    rcases List.append_eq_nil.mp h with ⟨h1, _⟩
    exact hDne (List.append_eq_nil.mp h1).2
  have hcl : cleanList (p ++ D.toList ++ s) = pyStrip (p ++ s) := by
    rcases hD with h | h | h <;> subst h
    · exact cleanList_insert_em p s hp hs
    · exact cleanList_insert_comment p s hp hs
    · exact cleanList_insert_div p s hp hs
  intro c hc
  rw [clean_description] at hc
  rw [if_neg (asString_ne_empty hne)] at hc
  rw [toList_asString, toList_asString, hcl] at hc
  have hmem : c ∈ p ++ s := pyStrip_subset hc
  rcases List.mem_append.mp hmem with h | h
  · exact hp c h
  · exact hs c h

/-! ### `strip()` is idempotent -/

theorem pyStrip_idem (l : List Char) : pyStrip (pyStrip l) = pyStrip l := by
  unfold pyStrip
  have hBA : List.rdropWhile wsChar (List.dropWhile wsChar l) <+: List.dropWhile wsChar l :=
    List.rdropWhile_prefix wsChar (List.dropWhile wsChar l)
  have hdw : List.dropWhile wsChar (List.rdropWhile wsChar (List.dropWhile wsChar l))
      = List.rdropWhile wsChar (List.dropWhile wsChar l) := by
    cases hBe : List.rdropWhile wsChar (List.dropWhile wsChar l) with
    | nil => simp
    | cons b B2 =>
      obtain ⟨t, ht⟩ := hBA
      rw [hBe] at ht
      have h0 : 0 < (List.dropWhile wsChar l).length := by
        rw [← ht]; simp
      have hget : (List.dropWhile wsChar l).get ⟨0, h0⟩ = b := by
        simp [← ht]
      have hb : ¬ wsChar b = true := by
        have hnot := List.dropWhile_get_zero_not wsChar l h0
        rwa [hget] at hnot
      simp [List.dropWhile_cons, hb]
  rw [hdw, List.rdropWhile_idempotent]

/-- The output of `clean_description` is already stripped. -/
theorem pyStrip_cleanList (l : List Char) : pyStrip (cleanList l) = cleanList l := by
  unfold cleanList
  exact pyStrip_idem _

theorem asString_toList (s : String) : s.toList.asString = s := rfl

/-! ### Claim theorems -/

/-- C8: for every absent (`None`) or empty-string input, `clean_description`
returns the empty string, never null (source lines 70-71). -/
theorem c8_clean_description_absent_or_empty :
    clean_description none = "" ∧ clean_description (some "") = "" :=
  ⟨rfl, by simp [clean_description]⟩

/-- C9: the collapse of empty paragraph elements is a single non-recursive
substitution pass: on `"<p><p></p></p>"` removing the inner empty paragraph
exposes a new one, which remains in the returned text. -/
theorem c9_empty_paragraph_single_pass :
    clean_description (some "<p><p></p></p>") = "<p></p>" := by decide

/-- C3 counterexample: the claim fails as stated.  `nestedCommentInput`
contains the literal disclaimer comment, yet the output of `clean_description`
still contains it: removing the inner comment splices the surrounding halves
into a fresh copy, and `re.sub` does not rescan. -/
theorem c3_counterexample :
    commentD.toList <:+: nestedCommentInput.toList ∧
    commentD.toList <:+: (clean_description (some nestedCommentInput)).toList := by
  constructor
  · exact ⟨"<!-- DEMO_".toList, "STORE_DISCLAIMER -->".toList, by decide⟩
  · have h : clean_description (some nestedCommentInput) = commentD := by decide
    rw [h]

/-- C3 (amended): for every input `p ++ D ++ s` where `D` is one of the three
canonical disclaimers (the exact `<em>` disclaimer, the literal comment, or a
canonical `demo-store-disclaimer` div) and the context `p`, `s` is free of the
character `<`, the output of `clean_description` contains none of the three
disclaimer substrings.  (The unrestricted claim is false: see the
counterexample, where removal splices a new occurrence out of the context.) -/
theorem c3_amended (p s : List Char) (hp : ∀ c ∈ p, c ≠ '<') (hs : ∀ c ∈ s, c ≠ '<')
    (D : String) (hD : D = emD ∨ D = commentD ∨ D = divD) :
    ¬ (emD.toList <:+: (clean_description (some ((p ++ D.toList ++ s).asString))).toList) ∧
    ¬ (commentD.toList <:+: (clean_description (some ((p ++ D.toList ++ s).asString))).toList) ∧
    ¬ (divD.toList <:+: (clean_description (some ((p ++ D.toList ++ s).asString))).toList) := by
  have hout := clean_insert_no_lt p s hp hs D hD
  refine ⟨fun hinf => ?_, fun hinf => ?_, fun hinf => ?_⟩
  · exact hout '<' (hinf.subset (by decide)) rfl
  · exact hout '<' (hinf.subset (by decide)) rfl
  · exact hout '<' (hinf.subset (by decide)) rfl

theorem c3_witness :
    (∀ c ∈ "Great bike! ".toList, c ≠ '<') ∧
    (∀ c ∈ " Buy now.".toList, c ≠ '<') ∧
    ¬ (commentD.toList <:+:
        (clean_description (some (("Great bike! ".toList ++ commentD.toList ++ " Buy now.".toList).asString))).toList) :=
  ⟨by decide, by decide,
    (c3_amended "Great bike! ".toList " Buy now.".toList (by decide) (by decide)
      commentD (Or.inr (Or.inl rfl))).2.1⟩

/-- C4 counterexample: `clean_description` is not idempotent.  Cleaning
`"<p><p></p></p>"` yields `"<p></p>"`, and cleaning that again yields `""`. -/
theorem c4_counterexample :
    clean_description (some (clean_description (some "<p><p></p></p>")))
      ≠ clean_description (some "<p><p></p></p>") := by decide

/-- C4 (amended): `clean_description` is idempotent on every input whose
cleaned text is left unchanged by the four substitutions (i.e. the cleaned
text contains no disclaimer-pattern match and no empty-paragraph match); it is
not idempotent in general, because a removal can expose a new match. -/
theorem c4_amended (x : Option String)
    (h : subst pPattern (subst divPattern (subst commentPattern (subst emPattern
      (clean_description x).toList))) = (clean_description x).toList) :
    clean_description (some (clean_description x)) = clean_description x := by
  by_cases hy : clean_description x = ""
  · rw [hy]
    simp [clean_description]
  · show (if clean_description x = "" then ""
      else (cleanList (clean_description x).toList).asString) = clean_description x
    rw [if_neg hy]
    have hchain : cleanList (clean_description x).toList
        = pyStrip ((clean_description x).toList) := by
      unfold cleanList
      rw [h]
    rw [hchain]
    have hstrip : pyStrip ((clean_description x).toList) = (clean_description x).toList := by
      match x with
      | none => simp [clean_description, pyStrip]
      | some s =>
        by_cases hs0 : s = ""
        · subst hs0
          simp [clean_description, pyStrip]
        · have he : clean_description (some s) = (cleanList s.toList).asString := by
            simp [clean_description, hs0]
          rw [he, toList_asString, pyStrip_cleanList]
    rw [hstrip, asString_toList]

theorem c4_witness :
    (subst pPattern (subst divPattern (subst commentPattern (subst emPattern
      (clean_description (some "<p>Hello</p>")).toList)))
      = (clean_description (some "<p>Hello</p>")).toList) ∧
    clean_description (some (clean_description (some "<p>Hello</p>")))
      = clean_description (some "<p>Hello</p>") :=
  ⟨by decide, c4_amended (some "<p>Hello</p>") (by decide)⟩

/-- C5: on every exit path of the fetch on which a session was activated —
normal return, any caught exception, or a propagating exception — the session
is cleared before the fetch finishes, and the fetch never terminates with the
session still active. -/
theorem c5_session_always_cleared (shop tok : Option String) (oc : FetchOutcome) :
    sessionActiveAfter (get_all_shopify_products shop tok oc).sessionEvents = false ∧
    (SessionEv.activated ∈ (get_all_shopify_products shop tok oc).sessionEvents →
      (get_all_shopify_products shop tok oc).sessionEvents.getLast? = some SessionEv.cleared) := by
  unfold get_all_shopify_products
  split
  · simp [sessionActiveAfter]
  · cases oc <;> simp [sessionActiveAfter]

theorem c5_witness :
    sessionActiveAfter (get_all_shopify_products (some "example.myshopify.com") (some "shpat-token") FetchOutcome.forbidden).sessionEvents = false ∧
    (get_all_shopify_products (some "example.myshopify.com") (some "shpat-token") FetchOutcome.forbidden).sessionEvents.getLast? = some SessionEv.cleared := by
  have h := c5_session_always_cleared (some "example.myshopify.com") (some "shpat-token") FetchOutcome.forbidden
  exact ⟨h.1, h.2 (by decide)⟩

/-- C6: with configuration present, every caught fetch failure (forbidden,
resource-not-found, unauthorized, server error, or any other exception) yields
a logged error and a null result with no partial products, `main` exits 1 on
it, while a successful zero-product fetch exits 0. -/
theorem c6_failures_null_and_logged (shop tok : Option String) (oc : FetchOutcome)
    (raises : ShopifyProduct → Option String) (w : Bool)
    (hshop : pyTruthyStr shop = true) (htok : pyTruthyStr tok = true)
    (hoc : oc.isCaughtFailure = true) :
    (get_all_shopify_products shop tok oc).result = FetchExit.returned none ∧
    (get_all_shopify_products shop tok oc).errorLogs ≠ [] ∧
    (mainRun { SHOP_URL := shop, SHOPIFY_ACCESS_TOKEN := tok } oc raises w).exitCode = 1 ∧
    (mainRun { SHOP_URL := shop, SHOPIFY_ACCESS_TOKEN := tok } (FetchOutcome.ok []) raises w).exitCode = 0 := by
  cases oc <;>
    simp_all [mainRun, get_all_shopify_products, FetchOutcome.isCaughtFailure]

theorem c6_witness :
    pyTruthyStr (some "example.myshopify.com") = true ∧
    pyTruthyStr (some "shpat-token") = true ∧
    FetchOutcome.isCaughtFailure (FetchOutcome.serverError "boom") = true ∧
    ((get_all_shopify_products (some "example.myshopify.com") (some "shpat-token") (FetchOutcome.serverError "boom")).result = FetchExit.returned none ∧
     (get_all_shopify_products (some "example.myshopify.com") (some "shpat-token") (FetchOutcome.serverError "boom")).errorLogs ≠ [] ∧
     (mainRun { SHOP_URL := some "example.myshopify.com", SHOPIFY_ACCESS_TOKEN := some "shpat-token" } (FetchOutcome.serverError "boom") (fun _ => none) false).exitCode = 1 ∧
     (mainRun { SHOP_URL := some "example.myshopify.com", SHOPIFY_ACCESS_TOKEN := some "shpat-token" } (FetchOutcome.ok []) (fun _ => none) false).exitCode = 0) :=
  ⟨by decide, by decide, by decide,
    c6_failures_null_and_logged (some "example.myshopify.com") (some "shpat-token")
      (FetchOutcome.serverError "boom") (fun _ => none) false (by decide) (by decide) (by decide)⟩

/-- C7: in the write loop, a product whose mapping or serialization raises is
caught, logged with its identifier, and skipped: the documents written are
exactly those of the non-raising products, in order, and every raising
error line of each raising product (naming its id) is logged. -/
theorem c7_per_item_failure_isolated (shop_url : String)
    (raises : ShopifyProduct → Option String) (ps : List ShopifyProduct) :
    (writeLoop shop_url raises ps).1 = ps.filterMap (fun q => match raises q with
      | none => some (JValue.obj (convert_shopify_product_to_schema_product q shop_url))
      | some _ => none) ∧
    ∀ p ∈ ps, ∀ e, raises p = some e → errLine p e ∈ (writeLoop shop_url raises ps).2 := by
  induction ps with
  | nil => exact ⟨rfl, by simp⟩
  | cons q ps ih =>
    constructor
    · cases hq : raises q <;> simp [writeLoop, hq, List.filterMap_cons, ih.1]
    · intro p hp e he
      rcases List.mem_cons.mp hp with rfl | hp2
      · simp [writeLoop, he]
      · have hmem := ih.2 p hp2 e he
        cases hq : raises q with
        | some e2 => simpa [writeLoop, hq] using Or.inr hmem
        | none => simpa [writeLoop, hq] using hmem

theorem c7_witness :
    (writeLoop "example.myshopify.com" raisesEx [prodFail, prodEx]).1
      = [JValue.obj (convert_shopify_product_to_schema_product prodEx "example.myshopify.com")] ∧
    errLine prodFail "boom" ∈ (writeLoop "example.myshopify.com" raisesEx [prodFail, prodEx]).2 := by
  have h := c7_per_item_failure_isolated "example.myshopify.com" raisesEx [prodFail, prodEx]
  refine ⟨?_, h.2 prodFail (List.Mem.head _) "boom" rfl⟩
  rw [h.1]
  rfl

/-- C2 counterexample: a successful fetch of zero products does *not* produce
an empty output file: `main` exits at source line 139 before the output file
is ever opened, so no file is written. -/
theorem c2_counterexample :
    ¬ ((mainRun cfgEx (FetchOutcome.ok []) (fun _ => none) false).exitCode = 0 ∧
       (mainRun cfgEx (FetchOutcome.ok []) (fun _ => none) false).output = some []) := by
  intro hcl
  have h : (mainRun cfgEx (FetchOutcome.ok []) (fun _ => none) false).output = none := rfl
  rw [h] at hcl
  exact Option.noConfusion hcl.2

/-- C2 (amended): when the fetch succeeds and returns zero products, the
program exits with status code 0 *without opening or writing the output file*
(the empty-catalog check at lines 137-139 runs before the file is opened). -/
theorem c2_amended (cfg : Config) (raises : ShopifyProduct → Option String) (w : Bool)
    (hshop : pyTruthyStr cfg.SHOP_URL = true)
    (htok : pyTruthyStr cfg.SHOPIFY_ACCESS_TOKEN = true) :
    (mainRun cfg (FetchOutcome.ok []) raises w).exitCode = 0 ∧
    (mainRun cfg (FetchOutcome.ok []) raises w).output = none := by
  unfold mainRun get_all_shopify_products
  simp [hshop, htok]

theorem c2_witness :
    pyTruthyStr cfgEx.SHOP_URL = true ∧
    pyTruthyStr cfgEx.SHOPIFY_ACCESS_TOKEN = true ∧
    (mainRun cfgEx (FetchOutcome.ok []) (fun _ => none) false).exitCode = 0 ∧
    (mainRun cfgEx (FetchOutcome.ok []) (fun _ => none) false).output = none := by
  have h := c2_amended cfgEx (fun _ => none) false (by decide) (by decide)
  exact ⟨by decide, by decide, h.1, h.2⟩

/-- C1 counterexample: null values are *not* omitted at every level.  For
`prodEx`, whose variant has a null SKU, the emitted document contains
`"sku": null` inside the variant sub-document (line 119 filters only the top
level). -/
theorem c1_counterexample :
    HasNullValue (JValue.obj (convert_shopify_product_to_schema_product prodEx "example.myshopify.com")) := by
  rw [show convert_shopify_product_to_schema_product prodEx "example.myshopify.com" = convExFields from rfl]
  refine HasNullValue.inObj _ "variants" (JValue.list [JValue.obj varExFields]) ?_ ?_
  · exact List.Mem.tail _ (List.Mem.tail _ (List.Mem.tail _ (List.Mem.tail _ (List.Mem.tail _
      (List.Mem.tail _ (List.Mem.tail _ (List.Mem.tail _ (List.Mem.tail _ (List.Mem.tail _
        (List.Mem.head _))))))))))
  · refine HasNullValue.inList _ (JValue.obj varExFields) (List.Mem.head _) ?_
    refine HasNullValue.hereObj _ "sku" ?_
    exact List.Mem.tail _ (List.Mem.tail _ (List.Mem.tail _ (List.Mem.tail _ (List.Mem.head _))))

/-- C1 (amended): null-valued keys are omitted from the *top level* of the
emitted document, and every top-level key whose value is not null — including
empty strings and empty lists — is kept; null values inside variant
sub-documents are retained (see the counterexample). -/
theorem c1_amended (product : ShopifyProduct) (shop_url : String) :
    (∀ kv ∈ convert_shopify_product_to_schema_product product shop_url, kv.2 ≠ JValue.null) ∧
    (∀ kv ∈ productInfoRaw product shop_url, kv.2 ≠ JValue.null →
      kv ∈ convert_shopify_product_to_schema_product product shop_url) := by
  constructor
  · intro kv hkv hnull
    have h := (List.mem_filter.mp hkv).2
    rw [hnull] at h
    simp [JValue.isNull] at h
  · intro kv hkv hnn
    refine List.mem_filter.mpr ⟨hkv, ?_⟩
    cases h2 : kv.2 with
    | null => exact absurd h2 hnn
    | str s => rfl
    | num n => rfl
    | list xs => rfl
    | obj fields => rfl

theorem c1_witness :
    (("vendor", JValue.str "Pure Fix Cycles") ∈ productInfoRaw prodEx "example.myshopify.com") ∧
    (JValue.str "Pure Fix Cycles" ≠ JValue.null) ∧
    (("vendor", JValue.str "Pure Fix Cycles") ∈ convert_shopify_product_to_schema_product prodEx "example.myshopify.com") := by
  have hraw : ("vendor", JValue.str "Pure Fix Cycles") ∈ productInfoRaw prodEx "example.myshopify.com" := by
    rw [show productInfoRaw prodEx "example.myshopify.com" = convExFields from rfl]
    exact List.Mem.tail _ (List.Mem.tail _ (List.Mem.tail _ (List.Mem.tail _ (List.Mem.tail _
      (List.Mem.head _)))))
  have hnn : JValue.str "Pure Fix Cycles" ≠ JValue.null := fun h => JValue.noConfusion h
  exact ⟨hraw, hnn, (c1_amended prodEx "example.myshopify.com").2 _ hraw hnn⟩

/-- C10: the emitted document always contains the keys `@type` (with value
`"Product"`), `description`, `url` and `productID`, whatever product fields
are null, because the values bound to those keys are never null. -/
theorem c10_fixed_keys_always_present (product : ShopifyProduct) (shop_url : String) :
    ("@type", JValue.str "Product") ∈ convert_shopify_product_to_schema_product product shop_url ∧
    (∃ s, ("description", JValue.str s) ∈ convert_shopify_product_to_schema_product product shop_url) ∧
    (∃ s, ("url", JValue.str s) ∈ convert_shopify_product_to_schema_product product shop_url) ∧
    (∃ s, ("productID", JValue.str s) ∈ convert_shopify_product_to_schema_product product shop_url) := by
  have h1 : ("@type", JValue.str "Product")
      ∈ convert_shopify_product_to_schema_product product shop_url :=
    List.mem_filter.mpr
      ⟨List.mem_append_left _ (List.mem_append_left _ (List.Mem.head _)), rfl⟩
  have h2 : ("description", JValue.str (clean_description product.body_html))
      ∈ convert_shopify_product_to_schema_product product shop_url :=
    List.mem_filter.mpr
      ⟨List.mem_append_left _ (List.mem_append_left _
        (List.Mem.tail _ (List.Mem.tail _ (List.Mem.head _)))), rfl⟩
  have h3 : ("url", JValue.str ("https://" ++ shop_url ++ "/products/" ++ product.handle))
      ∈ convert_shopify_product_to_schema_product product shop_url :=
    List.mem_filter.mpr
      ⟨List.mem_append_left _ (List.mem_append_left _
        (List.Mem.tail _ (List.Mem.tail _ (List.Mem.tail _ (List.Mem.head _))))), rfl⟩
  have h4 : ("productID", JValue.str (toString product.id))
      ∈ convert_shopify_product_to_schema_product product shop_url :=
    List.mem_filter.mpr
      ⟨List.mem_append_left _ (List.mem_append_left _
        (List.Mem.tail _ (List.Mem.tail _ (List.Mem.tail _ (List.Mem.tail _ (List.Mem.head _)))))), rfl⟩
  exact ⟨h1, ⟨_, h2⟩, ⟨_, h3⟩, ⟨_, h4⟩⟩

end Shopify
